import Mathlib

/-!
Verification of the role-manager web client against a shallow embedding of
its TypeScript source.

The embedding covers the permission model (`getProjectPermissions`, which
exists in two copies: `src/types/project.ts` and an "optimized" copy in
`src/types/auth.ts`), the two project stores (the service-backed store in
`src/features/projects/` and the legacy mock-backed store in
`src/contexts/project-context.tsx`), the project data service, and the
session-initialization logic of `src/contexts/auth-context.tsx`.

Remote calls (Supabase queries) are modelled by passing the remote response
as an explicit argument, and each store operation reports whether the remote
call was reached (`remoteAttempted`), so that "raised before the remote call"
properties are expressible.  The `role` field of a user is a `String`: at
runtime roles come from the `profiles.role` TEXT column and the TypeScript
`as UserRole` cast performs no check, which is why both copies of the
permission function carry a defensive non-enumerated-role branch.
-/

/-- A user profile, from the `User` interface of `src/types/auth.ts`. -/
structure User where
  id : String
  email : String
  name : String
  role : String
  createdAt : String
deriving DecidableEq, Repr

/-- A project, from the `Project` interface of `src/types/project.ts`. -/
structure Project where
  id : String
  title : String
  content : String
  createdBy : String
  createdAt : String
  updatedAt : String
deriving DecidableEq, Repr

/-- A project joined with its author, from `ProjectWithAuthor`. -/
structure ProjectWithAuthor extends Project where
  author : User
deriving DecidableEq, Repr

/-- The permission triple returned by `getProjectPermissions`. -/
structure ProjectPermissions where
  canView : Bool
  canEdit : Bool
  canDelete : Bool
deriving DecidableEq, Repr

namespace ProjectTypes

/-- Embedding of `getProjectPermissions` from `src/types/project.ts`
(lines 23-51): null checks, then Admin, Editor, Viewer branches, then the
defensive all-false default. -/
def getProjectPermissions (project : Option Project) (user : Option User) :
    ProjectPermissions :=
  match project, user with
  | some project, some user =>
    if user.role = "Admin" then
      ⟨true, true, true⟩
    else if user.role = "Editor" then
      ⟨true, true, decide (project.createdBy = user.id)⟩
    else if user.role = "Viewer" then
      ⟨true, false, false⟩
    else
      ⟨false, false, false⟩
  | _, _ => ⟨false, false, false⟩

end ProjectTypes

namespace AuthTypes

/-- Embedding of the "optimized" `getProjectPermissions` copy appended to
`src/types/auth.ts` (lines 56-81): null checks, Admin and Editor branches,
and then an unconditional Viewer-style fallthrough (there is no
`role === "Viewer"` test and no all-false default). -/
def getProjectPermissions (project : Option Project) (user : Option User) :
    ProjectPermissions :=
  match project, user with
  | some project, some user =>
    if user.role = "Admin" then
      ⟨true, true, true⟩
    else if user.role = "Editor" then
      ⟨true, true, decide (project.createdBy = user.id)⟩
    else
      ⟨true, false, false⟩
  | _, _ => ⟨false, false, false⟩

end AuthTypes

/-- Concrete editor used to instantiate universally quantified theorems. -/
def sampleEditor : User := ⟨"u1", "e@example.com", "Edna", "Editor", "t0"⟩

/-- Concrete project created by `sampleEditor`. -/
def sampleProject : Project := ⟨"p1", "Title", "Content", "u1", "t0", "t0"⟩

/-- Concrete user whose role string is outside the enumerated three. -/
def unknownRoleUser : User := ⟨"u9", "m@example.com", "Mo", "Manager", "t0"⟩

/-- Concrete user with another unrecognized role string. -/
def guestRoleUser : User := ⟨"u7", "g@example.com", "Gil", "Guest", "t0"⟩

/-- The three mutating actions accepted by the `checkPermission` helpers. -/
inductive ProjAction where
  | create
  | update
  | delete
deriving DecidableEq, Repr

/-- String form of an action, as interpolated into error messages. -/
def ProjAction.str : ProjAction → String
  | .create => "create"
  | .update => "update"
  | .delete => "delete"

/-- Outcome of a service-backed store operation: the value or thrown error,
the local project cache afterwards, and whether the remote call was
reached. -/
structure StoreOutcome (α : Type) where
  result : Except String α
  projects : List Project
  remoteAttempted : Bool
deriving Repr

namespace FeaturesStore

/-- Embedding of `checkPermission` from
`src/features/projects/use-project-permissions.ts`: rejects a missing user
and rejects Viewers for any of the three mutating actions; no ownership
check is performed here. -/
def checkPermission (user : Option User) (action : ProjAction) :
    Except String Unit :=
  match user with
  | none => .error "You must be logged in"
  | some u =>
    if u.role = "Viewer" ∧
        (action = .create ∨ action = .update ∨ action = .delete) then
      .error ("Viewers don\x27t have permission to " ++ action.str ++ " projects")
    else
      .ok ()

/-- Embedding of `createProject` from
`src/features/projects/project-context.tsx` (lines 34-60): permission check,
null-user check, then the remote insert (`createProjectService`), whose
response is the `remote` argument; on success the new project is prepended
to the local cache. -/
def createProject (user : Option User) (projects : List Project)
    (title content : String) (remote : Except String Project) :
    StoreOutcome Project :=
  match checkPermission user .create with
  | .error e => ⟨.error e, projects, false⟩
  | .ok _ =>
    match user with
    | none => ⟨.error "User not authenticated", projects, false⟩
    | some _ =>
      match remote with
      | .error e => ⟨.error e, projects, true⟩
      | .ok p => ⟨.ok p, p :: projects, true⟩

/-- Embedding of `updateProject` from
`src/features/projects/project-context.tsx` (lines 62-88): permission check,
null-user check, then the remote update (`updateProjectService`); on success
every cached project with the matching id is replaced. -/
def updateProject (user : Option User) (projects : List Project)
    (id title content : String) (remote : Except String Project) :
    StoreOutcome Project :=
  match checkPermission user .update with
  | .error e => ⟨.error e, projects, false⟩
  | .ok _ =>
    match user with
    | none => ⟨.error "User not authenticated", projects, false⟩
    | some _ =>
      match remote with
      | .error e => ⟨.error e, projects, true⟩
      | .ok p => ⟨.ok p, projects.map (fun q => if q.id = id then p else q), true⟩

/-- Embedding of `deleteProject` from
`src/features/projects/project-context.tsx` (lines 90-115): permission
check, null-user check, then the remote delete (`deleteProjectService`); on
success the project is filtered out of the local cache. -/
def deleteProject (user : Option User) (projects : List Project)
    (id : String) (remote : Except String Unit) : StoreOutcome Unit :=
  match checkPermission user .delete with
  | .error e => ⟨.error e, projects, false⟩
  | .ok _ =>
    match user with
    | none => ⟨.error "User not authenticated", projects, false⟩
    | some _ =>
      match remote with
      | .error e => ⟨.error e, projects, true⟩
      | .ok _ => ⟨.ok (), projects.filter (fun p => p.id != id), true⟩

end FeaturesStore

namespace ContextsStore

/-- Embedding of the local `checkPermission` helper of
`src/contexts/project-context.tsx` (lines 39-47): same role-only check as
the features-store helper. -/
def checkPermission (user : Option User) (action : ProjAction) :
    Except String Unit :=
  match user with
  | none => .error "You must be logged in"
  | some u =>
    if u.role = "Viewer" ∧
        (action = .create ∨ action = .update ∨ action = .delete) then
      .error ("Viewers don\x27t have permission to " ++ action.str ++ " projects")
    else
      .ok ()

/-- Replace the project at the first index whose id matches, mirroring
`findIndex` followed by assignment at that index. -/
def replaceFirst : List Project → String → Project → List Project
  | [], _, _ => []
  | p :: ps, id, q => if p.id = id then q :: ps else p :: replaceFirst ps id q

/-- Remove the project at the first index whose id matches, mirroring
`findIndex` followed by `splice(index, 1)`. -/
def removeFirst : List Project → String → List Project
  | [], _ => []
  | p :: ps, id => if p.id = id then ps else p :: removeFirst ps id

/-- Embedding of `updateProject` from `src/contexts/project-context.tsx`
(lines 87-136): permission check, lookup by `findIndex`, a redundant Viewer
check, and the client-side Editor ownership check, before the mock database
is mutated.  `now` stands for `new Date().toISOString()`. -/
def updateProject (user : Option User) (projects : List Project)
    (id title content now : String) : Except String Project × List Project :=
  match checkPermission user .update with
  | .error e => (.error e, projects)
  | .ok _ =>
    match user with
    | none => (.error "You must be logged in", projects)
    | some u =>
      match projects.find? (fun p => p.id == id) with
      | none => (.error "Project not found", projects)
      | some p =>
        if u.role = "Viewer" then
          (.error "Viewers cannot edit projects", projects)
        else if u.role = "Editor" ∧ p.createdBy ≠ u.id then
          (.error "You can only edit your own projects", projects)
        else
          let updated : Project :=
            { p with title := title, content := content, updatedAt := now }
          (.ok updated, replaceFirst projects id updated)

/-- Embedding of `deleteProject` from `src/contexts/project-context.tsx`
(lines 138-174): permission check, lookup by `findIndex`, and the
client-side Editor ownership check, before the mock database `splice`. -/
def deleteProject (user : Option User) (projects : List Project)
    (id : String) : Except String Unit × List Project :=
  match checkPermission user .delete with
  | .error e => (.error e, projects)
  | .ok _ =>
    match user with
    | none => (.error "You must be logged in", projects)
    | some u =>
      match projects.find? (fun p => p.id == id) with
      | none => (.error "Project not found", projects)
      | some p =>
        if u.role = "Editor" ∧ p.createdBy ≠ u.id then
          (.error "You can only delete your own projects", projects)
        else
          (.ok (), removeFirst projects id)

/-- Embedding of `getAllProjects` from `src/contexts/project-context.tsx`:
returns a copy of the mock database. -/
def getAllProjects (projects : List Project) : List Project := projects

/-- Embedding of `getProjectWithAuthor` from
`src/contexts/project-context.tsx` (lines 196-214): looks the project up,
then looks its author up in the user list, and returns null when the author
record is absent. -/
def getProjectWithAuthor (projects : List Project) (users : List User)
    (id : String) : Option ProjectWithAuthor :=
  match projects.find? (fun p => p.id == id) with
  | none => none
  | some project =>
    match users.find? (fun u => u.id == project.createdBy) with
    | none => none
    | some author => some { toProject := project, author := author }

end ContextsStore

/-- A row of the `profiles` collection. -/
structure Profile where
  id : String
  name : String
  role : String
  createdAt : String
deriving DecidableEq, Repr

namespace ProjectService

/-- Embedding of `getProjectService` from
`src/features/projects/project-service.ts`: the database is the row list, a
query error or an empty result both map to none. -/
def getProjectService (db : List Project) (id : String) : Option Project :=
  db.find? (fun p => p.id == id)

/-- Embedding of `getProjectWithAuthorService` from
`src/features/projects/project-service.ts` (lines 98-153): fetch the
project (absent id resolves to none), then fetch the creator profile; when
the profile row is absent the author is the placeholder
`{name := "Unknown user", role := "Viewer"}` built from the project's
`created_by`. -/
def getProjectWithAuthorService (db : List Project) (profiles : List Profile)
    (id : String) : Option ProjectWithAuthor :=
  match db.find? (fun p => p.id == id) with
  | none => none
  | some projectData =>
    let author : User :=
      match profiles.find? (fun pr => pr.id == projectData.createdBy) with
      | some profileData =>
        ⟨profileData.id, "", profileData.name, profileData.role,
          profileData.createdAt⟩
      | none =>
        ⟨projectData.createdBy, "", "Unknown user", "Viewer", ""⟩
    some { toProject := projectData, author := author }

end ProjectService

/-- The user object carried by the external auth session. -/
structure AuthUser where
  id : String
  email : Option String
deriving DecidableEq, Repr

/-- An external auth session, as returned by `getSession`. -/
structure Session where
  user : AuthUser
  accessToken : String
deriving DecidableEq, Repr

/-- The session-store state of `src/contexts/auth-context.tsx`. -/
structure AuthState where
  user : Option User
  token : Option String
  isAuthenticated : Bool
  isLoading : Bool
deriving DecidableEq, Repr

namespace AuthContext

/-- The initial session-store state. -/
def initialState : AuthState := ⟨none, none, false, true⟩

/-- Embedding of `checkSession` from `src/contexts/auth-context.tsx`
(lines 55-103).  The session query result and the profile fetch result
(`fetchUserProfile` maps both query errors and empty results to null) are
the inputs; the function returns the state the store is set to. -/
def checkSession (sessionResult : Except String (Option Session))
    (profileResult : Option Profile) : AuthState :=
  match sessionResult with
  | .error _ => { initialState with isLoading := false }
  | .ok none => { initialState with isLoading := false }
  | .ok (some session) =>
    match profileResult with
    | none => { initialState with isLoading := false }
    | some profile =>
      { user := some ⟨profile.id, session.user.email.getD "", profile.name,
          profile.role, profile.createdAt⟩,
        token := some session.accessToken,
        isAuthenticated := true,
        isLoading := false }

end AuthContext

/-- Concrete editor who created `projectX`. -/
def editorA : User := ⟨"a", "a@example.com", "Ann", "Editor", "t0"⟩

/-- Concrete second editor, distinct from `editorA`. -/
def editorB : User := ⟨"b", "b@example.com", "Ben", "Editor", "t0"⟩

/-- Concrete project created by `editorA`. -/
def projectX : Project := ⟨"x", "X", "body", "a", "t0", "t0"⟩

/-- Concrete viewer-role user. -/
def viewerUser : User := ⟨"v", "v@example.com", "Val", "Viewer", "t0"⟩

/-- Concrete project whose creator has no profile row. -/
def orphanProject : Project := ⟨"o", "O", "body", "ghost", "t0", "t0"⟩

/-- Concrete external auth session. -/
def sampleSession : Session := ⟨⟨"a", some "a@example.com"⟩, "tok"⟩

/-- Claim C1: for every user whose role is Editor and every non-null
project, both copies of `getProjectPermissions` return `canView = true`,
`canEdit = true`, and `canDelete = true` if and only if the project's
`createdBy` equals the user's `id`. -/
theorem editor_permissions (p : Project) (u : User) (h : u.role = "Editor") :
    (ProjectTypes.getProjectPermissions (some p) (some u)).canView = true ∧
    (ProjectTypes.getProjectPermissions (some p) (some u)).canEdit = true ∧
    ((ProjectTypes.getProjectPermissions (some p) (some u)).canDelete = true ↔
      p.createdBy = u.id) ∧
    (AuthTypes.getProjectPermissions (some p) (some u)).canView = true ∧
    (AuthTypes.getProjectPermissions (some p) (some u)).canEdit = true ∧
    ((AuthTypes.getProjectPermissions (some p) (some u)).canDelete = true ↔
      p.createdBy = u.id) := by
  simp [ProjectTypes.getProjectPermissions, AuthTypes.getProjectPermissions, h]

/-- Witness for C1 at the concrete editor and a project the editor created. -/
theorem editor_permissions_witness :
    (ProjectTypes.getProjectPermissions (some sampleProject) (some sampleEditor)).canDelete
      = true ↔ sampleProject.createdBy = sampleEditor.id :=
  (editor_permissions sampleProject sampleEditor rfl).2.2.1

/-- Claim C2: whenever either argument of `getProjectPermissions` is absent,
all three booleans are false, in both copies of the function. -/
theorem absent_argument_permissions (u : User) (p : Project) :
    ProjectTypes.getProjectPermissions (some p) none = ⟨false, false, false⟩ ∧
    ProjectTypes.getProjectPermissions none (some u) = ⟨false, false, false⟩ ∧
    ProjectTypes.getProjectPermissions none none = ⟨false, false, false⟩ ∧
    AuthTypes.getProjectPermissions (some p) none = ⟨false, false, false⟩ ∧
    AuthTypes.getProjectPermissions none (some u) = ⟨false, false, false⟩ ∧
    AuthTypes.getProjectPermissions none none = ⟨false, false, false⟩ :=
  ⟨rfl, rfl, rfl, rfl, rfl, rfl⟩

/-- Claim C3 counterexample: for a user whose role string is not one of the
three enumerated values, the `src/types/auth.ts` copy of
`getProjectPermissions` does not return the all-false defensive default: it
falls through to the Viewer triple `{canView := true, ...}`. -/
theorem unrecognized_role_counterexample :
    AuthTypes.getProjectPermissions (some sampleProject) (some unknownRoleUser) ≠
      ⟨false, false, false⟩ := by decide

/-- Claim C3 as amended: for a non-null user with an unrecognized role and a
non-null project, the `src/types/project.ts` implementation returns the
all-false defensive default, while the `src/types/auth.ts` copy returns the
Viewer triple `{canView := true, canEdit := false, canDelete := false}`. -/
theorem unrecognized_role_defaults (p : Project) (u : User)
    (h1 : u.role ≠ "Admin") (h2 : u.role ≠ "Editor") (h3 : u.role ≠ "Viewer") :
    ProjectTypes.getProjectPermissions (some p) (some u) = ⟨false, false, false⟩ ∧
    AuthTypes.getProjectPermissions (some p) (some u) = ⟨true, false, false⟩ := by
  simp [ProjectTypes.getProjectPermissions, AuthTypes.getProjectPermissions, h1, h2, h3]

/-- Witness for the amended C3 at a concrete unrecognized role. -/
theorem unrecognized_role_defaults_witness :
    ProjectTypes.getProjectPermissions (some sampleProject) (some unknownRoleUser)
      = ⟨false, false, false⟩ ∧
    AuthTypes.getProjectPermissions (some sampleProject) (some unknownRoleUser)
      = ⟨true, false, false⟩ :=
  unrecognized_role_defaults sampleProject unknownRoleUser
    (by decide) (by decide) (by decide)

/-- Claim C9: both copies of `getProjectPermissions` are total: every input
combination of nullable project and nullable user yields a defined
permission triple, which is always one of the four concrete triples the
source can produce.  Purity and absence of exceptions are reflected by the
fact that the source translates to a total computable Lean function with no
effect type. -/
theorem permissions_total (project : Option Project) (user : Option User) :
    (ProjectTypes.getProjectPermissions project user = ⟨false, false, false⟩ ∨
     ProjectTypes.getProjectPermissions project user = ⟨true, true, true⟩ ∨
     ProjectTypes.getProjectPermissions project user = ⟨true, true, false⟩ ∨
     ProjectTypes.getProjectPermissions project user = ⟨true, false, false⟩) ∧
    (AuthTypes.getProjectPermissions project user = ⟨false, false, false⟩ ∨
     AuthTypes.getProjectPermissions project user = ⟨true, true, true⟩ ∨
     AuthTypes.getProjectPermissions project user = ⟨true, true, false⟩ ∨
     AuthTypes.getProjectPermissions project user = ⟨true, false, false⟩) := by
  refine ⟨?_, ?_⟩ <;>
    rcases project with _ | p <;> rcases user with _ | u <;>
    first
      | (simp only [ProjectTypes.getProjectPermissions,
            AuthTypes.getProjectPermissions] <;>
          split_ifs <;> by_cases hc : p.createdBy = u.id <;> simp [hc])
      | simp [ProjectTypes.getProjectPermissions, AuthTypes.getProjectPermissions]

/-- Claim C10 counterexample: the two copies of `getProjectPermissions`
disagree at a concrete input whose role string is outside the three
enumerated values: `src/types/project.ts` gives the all-false default while
`src/types/auth.ts` gives the Viewer triple. -/
theorem permissions_copies_differ :
    ProjectTypes.getProjectPermissions (some sampleProject) (some guestRoleUser) ≠
      AuthTypes.getProjectPermissions (some sampleProject) (some guestRoleUser) := by
  decide

/-- Claim C10 as amended: the two copies of `getProjectPermissions` agree on
every input whose user role (when a user is present) is one of "Admin",
"Editor", "Viewer"; they differ only on unrecognized role strings. -/
theorem permissions_copies_agree_on_recognized (project : Option Project)
    (user : Option User)
    (h : ∀ u, user = some u →
      u.role = "Admin" ∨ u.role = "Editor" ∨ u.role = "Viewer") :
    ProjectTypes.getProjectPermissions project user =
      AuthTypes.getProjectPermissions project user := by
  rcases project with _ | p <;> rcases user with _ | u <;>
    simp [ProjectTypes.getProjectPermissions, AuthTypes.getProjectPermissions]
  rcases h u rfl with hr | hr | hr <;> simp [hr]

/-- Witness for the amended C10 at a concrete recognized-role input. -/
theorem permissions_copies_agree_witness :
    ProjectTypes.getProjectPermissions (some sampleProject) (some sampleEditor) =
      AuthTypes.getProjectPermissions (some sampleProject) (some sampleEditor) :=
  permissions_copies_agree_on_recognized (some sampleProject) (some sampleEditor)
    (fun u hu => by cases hu; exact Or.inr (Or.inl rfl))

/-- Claim C4 counterexample: in the service-backed store, an authenticated
Editor deleting a project created by a different user is not stopped
client-side: the permission check passes, the remote delete is attempted
(`remoteAttempted = true`), the result is success rather than an
authorization error, and the project is removed from the local collection. -/
theorem delete_foreign_project_not_blocked :
    FeaturesStore.deleteProject (some editorB) [projectX] "x" (.ok ()) =
      ⟨.ok (), [], true⟩ := rfl

/-- Claim C4 as amended: in the legacy mock-backed store
(`src/contexts/project-context.tsx`), `deleteProject` invoked by an
authenticated Editor on a project whose `createdBy` differs from the
Editor's id fails with the authorization error before the mock database is
mutated, the collection is unchanged, and the project is still returned by
`getAllProjects`; the service-backed store applies only the non-Viewer role
check client-side. -/
theorem delete_foreign_project_blocked_mock (u : User) (projects : List Project)
    (id : String) (p : Project)
    (hfind : projects.find? (fun q => q.id == id) = some p)
    (hrole : u.role = "Editor") (hown : p.createdBy ≠ u.id) :
    ContextsStore.deleteProject (some u) projects id =
      (.error "You can only delete your own projects", projects) ∧
    p ∈ ContextsStore.getAllProjects projects := by
  refine ⟨?_, List.mem_of_find?_eq_some hfind⟩
  unfold ContextsStore.deleteProject ContextsStore.checkPermission
  simp [hrole, hfind, hown]

/-- Witness for the amended C4: editor B attempts to delete editor A's
project. -/
theorem delete_foreign_project_blocked_mock_witness :
    ContextsStore.deleteProject (some editorB) [projectX] "x" =
      (.error "You can only delete your own projects", [projectX]) ∧
    projectX ∈ ContextsStore.getAllProjects [projectX] :=
  delete_foreign_project_blocked_mock editorB [projectX] "x" projectX
    (by decide) rfl (by decide)

/-- Claim C5: in the service-backed store, `createProject` invoked with no
authenticated user or by a Viewer fails with an error before the remote
insert is attempted, and the local project cache is unchanged. -/
theorem viewer_create_blocked (user : Option User) (projects : List Project)
    (title content : String) (remote : Except String Project)
    (h : ∀ u, user = some u → u.role = "Viewer") :
    (∃ e, (FeaturesStore.createProject user projects title content remote).result
      = .error e) ∧
    (FeaturesStore.createProject user projects title content remote).projects
      = projects ∧
    (FeaturesStore.createProject user projects title content remote).remoteAttempted
      = false := by
  rcases user with _ | u
  · exact ⟨⟨"You must be logged in", rfl⟩, rfl, rfl⟩
  · have hu := h u rfl
    unfold FeaturesStore.createProject FeaturesStore.checkPermission
    simp [hu]

/-- Witness for C5: a concrete Viewer attempting a create. -/
theorem viewer_create_blocked_witness :
    (FeaturesStore.createProject (some viewerUser) [] "T" "C"
      (.ok projectX)).remoteAttempted = false :=
  (viewer_create_blocked (some viewerUser) [] "T" "C" (.ok projectX)
    (fun u hu => by cases hu; rfl)).2.2

/-- Claim C6 counterexample: the mock-backed store cited by the claim does
apply a client-side ownership restriction on update: an authenticated Editor
updating a project created by a different user gets the authorization error
client-side and the collection is unchanged, contradicting "no client-side
ownership restriction is applied (only the non-Viewer role check)". -/
theorem update_foreign_project_blocked_mock :
    ContextsStore.updateProject (some editorB) [projectX] "x" "T2" "C2" "t2" =
      (.error "You can only edit your own projects", [projectX]) := rfl

/-- Claim C6 as amended: in the service-backed store
(`src/features/projects/project-context.tsx`), `updateProject` invoked by an
authenticated Editor attempts the remote update for any project id and any
cache contents — no client-side ownership restriction precedes the remote
call; the legacy mock-backed store additionally rejects Editor updates of
projects they did not create. -/
theorem editor_update_attempts_remote (u : User) (projects : List Project)
    (id title content : String) (remote : Except String Project)
    (h : u.role = "Editor") :
    (FeaturesStore.updateProject (some u) projects id title content
      remote).remoteAttempted = true := by
  unfold FeaturesStore.updateProject FeaturesStore.checkPermission
  rcases remote with e | p <;> simp [h]

/-- Witness for the amended C6: editor B updates editor A's project; the
remote call is reached. -/
theorem editor_update_attempts_remote_witness :
    (FeaturesStore.updateProject (some editorB) [projectX] "x" "T2" "C2"
      (.ok projectX)).remoteAttempted = true :=
  editor_update_attempts_remote editorB [projectX] "x" "T2" "C2"
    (.ok projectX) rfl

/-- Claim C7 counterexample: on initialization with an existing session but
a profile fetch that returns nothing, `checkSession` leaves no user identity
at all (so no Viewer-role fallback) and the state is unauthenticated. -/
theorem missing_profile_no_viewer_fallback :
    (AuthContext.checkSession (.ok (some sampleSession)) none).user = none ∧
    (AuthContext.checkSession (.ok (some sampleSession)) none).isAuthenticated
      = false := ⟨rfl, rfl⟩

/-- Claim C7 as amended: on session-store initialization, when the external
auth service reports an existing session but the profile fetch fails or
returns nothing, `checkSession` resets the store to the unauthenticated
idle state (no user, no token, not authenticated, loading cleared) rather
than falling back to a Viewer-role identity. -/
theorem missing_profile_resets_state (s : Session) :
    AuthContext.checkSession (.ok (some s)) none =
      { user := none, token := none, isAuthenticated := false,
        isLoading := false } := rfl

/-- Claim C8 counterexample: the legacy mock-backed `getProjectWithAuthor`
cited by the claim returns absent (not a placeholder author) for an
existing project whose creator is missing from the user list. -/
theorem mock_missing_author_returns_none :
    ContextsStore.getProjectWithAuthor [orphanProject] [] "o" = none := by
  decide

/-- Claim C8 as amended: the service-layer `getProjectWithAuthorService`
returns the project together with the placeholder author
`{name := "Unknown user", role := "Viewer"}` when the creator profile row
is absent, and `getProjectService` returns absent, not an error, when the
identifier does not resolve; the legacy mock-backed `getProjectWithAuthor`
instead returns absent when the author record is missing. -/
theorem service_placeholder_author (db : List Project)
    (profiles : List Profile) (id : String) (p : Project)
    (hfind : db.find? (fun q => q.id == id) = some p)
    (hprof : profiles.find? (fun pr => pr.id == p.createdBy) = none) :
    ProjectService.getProjectWithAuthorService db profiles id =
      some { toProject := p,
             author := ⟨p.createdBy, "", "Unknown user", "Viewer", ""⟩ } ∧
    ∀ id2 : String, db.find? (fun q => q.id == id2) = none →
      ProjectService.getProjectService db id2 = none := by
  constructor
  · unfold ProjectService.getProjectWithAuthorService
    simp only [hfind, hprof]
  · intro id2 h2
    unfold ProjectService.getProjectService
    exact h2

/-- Witness for the amended C8: a concrete project whose creator profile is
absent yields the placeholder author, and an unresolvable id yields none. -/
theorem service_placeholder_author_witness :
    ProjectService.getProjectWithAuthorService [orphanProject] [] "o" =
      some { toProject := orphanProject,
             author := ⟨"ghost", "", "Unknown user", "Viewer", ""⟩ } ∧
    ProjectService.getProjectService [orphanProject] "zzz" = none :=
  ⟨(service_placeholder_author [orphanProject] [] "o" orphanProject
      rfl rfl).1,
   (service_placeholder_author [orphanProject] [] "o" orphanProject
      rfl rfl).2 "zzz" rfl⟩
